import Mathlib

/-!
Verification of the AI-Personality-Twin backend.

This file gives a shallow embedding, in Lean 4, of the analysis core of the
AI-Personality-Twin repository (backend/nlp/models.py, backend/nlp/pipeline.py,
backend/utils/helpers.py, backend/avatar/generator.py,
backend/vision/emotion_detector.py, and the emotion-result substitution in
app.py), together with theorems settling the specification claims about it.

Modelling conventions:
* Python strings are Lean `String`s; slicing, stripping and splitting are
  modelled directly on the underlying character lists.
* Python floats are modelled as rationals (`ℚ`); `round(x, 1)` and
  `round(x, 2)` are modelled as round-half-up at the corresponding decimal,
  which agrees with Python's round-half-even everywhere no exact tie occurs
  (no tie is reachable for the keyword-count denominators 11 and 12 used by
  the trait catalog).
* External libraries (TextBlob sentiment, DeepFace, hashlib.md5) are
  modelled as explicit oracle parameters: a polarity value, an abstract
  detector outcome, and an abstract hex-digest function respectively.
-/

namespace PersonalityTwin

/-- Round-half-up to one decimal place, the model of Python `round(x, 1)`. -/
def roundTenths (q : ℚ) : ℚ := (⌊q * 10 + 1 / 2⌋ : ℚ) / 10

/-- Round-half-up to two decimal places, the model of Python `round(x, 2)`. -/
def roundHundredths (q : ℚ) : ℚ := (⌊q * 100 + 1 / 2⌋ : ℚ) / 100

/-- Python `int(x)`: truncation toward zero. -/
def pyInt (q : ℚ) : ℤ := if 0 ≤ q then ⌊q⌋ else ⌈q⌉

/-- Python `s.strip()`: drop whitespace from both ends. -/
def pyStrip (s : String) : String :=
  String.mk (((s.data.dropWhile Char.isWhitespace).reverse.dropWhile
    Char.isWhitespace).reverse)

/-- Python `s[:n]`: the first `n` characters. -/
def pySlice (s : String) (n : ℕ) : String := String.mk (s.data.take n)

/-- Split a character list at every whitespace character, keeping empty
segments (the behaviour of splitting on each separator occurrence). -/
def splitWS : List Char → List (List Char)
  | [] => [[]]
  | c :: cs =>
    let r := splitWS cs
    if c.isWhitespace then [] :: r
    else
      match r with
      | [] => [[c]]
      | w :: ws => (c :: w) :: ws

/-- Python `s.split()`: whitespace-delimited tokens, empties discarded. -/
def pySplit (s : String) : List String :=
  ((splitWS s.data).map String.mk).filter (fun w => w ≠ "")

/-- Does `n` occur as a contiguous run inside the second list? -/
def listIsSub (n : List Char) : List Char → Bool
  | [] => n.isEmpty
  | a :: t => n.isPrefixOf (a :: t) || listIsSub n t

/-- Python `needle in hay` for strings: substring occurrence. -/
def isSubstr (needle hay : String) : Bool :=
  listIsSub needle.data hay.data

/-- The keyword catalog `PersonalityAnalyzer.TRAIT_KEYWORDS`
(backend/nlp/models.py), in source iteration order. -/
def TRAIT_KEYWORDS : List (String × List String) :=
  [ ("Creative",
      ["create", "imagine", "art", "design", "innovative", "original",
       "unique", "inventive", "artistic", "creative", "ideas", "inspire"]),
    ("Optimistic",
      ["happy", "positive", "hope", "bright", "excited", "love",
       "great", "wonderful", "amazing", "best", "enjoy", "passionate"]),
    ("Friendly",
      ["friend", "people", "help", "kind", "care", "social",
       "together", "team", "share", "support", "community", "connect"]),
    ("Analytical",
      ["think", "analyze", "logic", "reason", "solve", "strategy",
       "plan", "detail", "organize", "systematic", "data", "research"]),
    ("Adventurous",
      ["adventure", "explore", "travel", "new", "challenge", "risk",
       "bold", "brave", "discover", "experience", "outdoor", "journey"]),
    ("Calm",
      ["peace", "quiet", "relax", "calm", "serene", "tranquil",
       "meditate", "mindful", "balance", "harmony", "gentle", "patient"]),
    ("Energetic",
      ["energy", "active", "dynamic", "enthusiastic", "vigorous",
       "lively", "spirited", "fast", "action", "sport", "exercise"]),
    ("Empathetic",
      ["understand", "feel", "empathy", "compassion", "sensitive",
       "emotion", "listen", "care", "concern", "warm", "heart"]) ]

/-- A character survives `re.sub(r'[^a-z\s]', '', ...)`: it is a lowercase
ASCII letter or whitespace. -/
def keepsChar (c : Char) : Bool :=
  (97 ≤ c.toNat && c.toNat ≤ 122) || c.isWhitespace

/-- `PersonalityAnalyzer.clean_text`: lowercase, strip non-letters, strip. -/
def clean_text (text : String) : String :=
  pyStrip (String.mk ((text.data.map Char.toLower).filter keepsChar))

/-- The inner keyword loop of `extract_traits`: returns the pair
(raw score, match count) accumulated over a keyword list. -/
def scanKeywords (cleaned : String) (words : List String) :
    List String → ℕ × ℕ
  | [] => (0, 0)
  | kw :: rest =>
    let sm := scanKeywords cleaned words rest
    if isSubstr kw cleaned then
      (sm.1 + (if words.contains kw then 2 else 1), sm.2 + 1)
    else sm

/-- `min(100, (score / len(keywords)) * 100 + 20)` rounded to one decimal. -/
def traitConfidence (score kc : ℕ) : ℚ :=
  roundTenths (min 100 ((score : ℚ) / (kc : ℚ) * 100 + 20))

/-- The body of the per-trait loop of `extract_traits`: an entry for a
catalog row exactly when its match count is positive. -/
def scoreEntry (cleaned : String) (words : List String)
    (tk : String × List String) : Option (String × ℚ) :=
  let sm := scanKeywords cleaned words tk.2
  if 0 < sm.2 then some (tk.1, traitConfidence sm.1 tk.2.length) else none

/-- The per-trait scoring map built by the keyword loop of
`extract_traits`, before the fallback, the sort and the truncation: one
entry per catalog trait with at least one keyword match. -/
def traitRawScores (text : String) : List (String × ℚ) :=
  let cleaned := clean_text text
  TRAIT_KEYWORDS.filterMap (scoreEntry cleaned (pySplit cleaned))

/-- Descending order on scored traits: `a` precedes `b` when `a`'s
confidence is at least `b`'s (Python `sorted(key=score, reverse=True)`). -/
def confGE (a b : String × ℚ) : Prop := b.2 ≤ a.2

instance : DecidableRel confGE :=
  fun a b => inferInstanceAs (Decidable (b.2 ≤ a.2))

instance : IsTotal (String × ℚ) confGE :=
  ⟨fun a b => le_total b.2 a.2⟩

instance : IsTrans (String × ℚ) confGE :=
  ⟨fun _ _ _ hab hbc => le_trans hbc hab⟩

/-- `PersonalityAnalyzer.extract_traits` (backend/nlp/models.py).  The
polarity of the raw text, computed by the external TextBlob library, is an
oracle parameter. -/
def extract_traits (polarity : ℚ) (text : String) : List (String × ℚ) :=
  let trait_scores := traitRawScores text
  let trait_scores :=
    if trait_scores = [] then
      if 0 < polarity then [("Optimistic", 60)] else [("Calm", 50)]
    else trait_scores
  (List.insertionSort confGE trait_scores).take 5

/-- `PersonalityAnalyzer.analyze_sentiment`: labels the externally
computed polarity. -/
def analyze_sentiment (polarity : ℚ) : String × ℚ :=
  (if 1 / 10 < polarity then "Positive"
   else if polarity < -(1 / 10) then "Negative"
   else "Neutral",
   polarity)

/-- `calculate_profile_score` (backend/utils/helpers.py). -/
def calculate_profile_score (sentiment_score : ℚ) (trait_count : ℕ)
    (text_length : ℕ) : ℤ :=
  let sentiment_points := ((sentiment_score + 1) / 2) * 40
  let trait_points : ℚ := min ((trait_count : ℚ) * 8) 40
  let text_points : ℚ := min (((text_length : ℚ) / 100) * 20) 20
  let total_score := sentiment_points + trait_points + text_points
  pyInt (min 100 (max 0 total_score))

/-- The profile score as the specification words it: the three additive
sub-scores, clamped to [0,100], then floored to an integer. -/
def profileScoreSpec (sentiment_score : ℚ) (trait_count : ℕ)
    (text_length : ℕ) : ℤ :=
  ⌊min 100 (max 0 (((sentiment_score + 1) / 2) * 40
      + min ((trait_count : ℚ) * 8) 40
      + min (((text_length : ℚ) / 100) * 20) 20))⌋

/-- The successful payload of `PersonalityAnalyzer.analyze_full`: sentiment
label, polarity, subjectivity, traits, summary and word count. -/
structure AnalysisOk where
  sentiment : String
  polarity : ℚ
  subjectivity : ℚ
  traits : List (String × ℚ)
  summary : String
  word_count : ℕ
deriving DecidableEq

/-- The dictionary returned by `NLPPipeline.process`: a success flag and
the keys that the two return paths populate (absent keys are `none`). -/
structure ProcessResult where
  success : Bool
  error : Option String
  analysis : Option AnalysisOk
  processed_text : Option String
deriving DecidableEq

/-- `NLPPipeline.process` (backend/nlp/pipeline.py).  The whole of
`analyze_full` (which consults the external TextBlob library) is an oracle
parameter; an exception raised inside it is an `Except.error` carrying
`str(e)`. -/
def process (analyze_full : String → Except String AnalysisOk)
    (text : String) : ProcessResult :=
  if text = "" ∨ (pyStrip text).length < 10 then
    { success := false,
      error := some "Text too short. Please provide at least 10 characters.",
      analysis := none, processed_text := none }
  else
    match analyze_full text with
    | .ok results =>
        { success := true, error := none, analysis := some results,
          processed_text := some (pySlice text 500) }
    | .error e =>
        { success := false, error := some ("Analysis failed: " ++ e),
          analysis := none, processed_text := none }

/-- A concrete analyzer oracle that always succeeds. -/
def okOracle : String → Except String AnalysisOk :=
  fun _ => .ok ⟨"Neutral", 0, 0, [], "", 0⟩

/-- A concrete analyzer oracle that always raises. -/
def errOracle : String → Except String AnalysisOk :=
  fun _ => .error "boom"

/-- One face record of a DeepFace analysis: the (possibly absent)
emotion-score mapping and dominant-emotion label. -/
structure FaceAnalysis where
  emotion : Option (List (String × ℚ))
  dominant_emotion : Option String
deriving DecidableEq

/-- The outcome of the external `DeepFace.analyze` call: an exception, a
list of face records, or a single record. -/
inductive DeepFaceOutcome where
  | raises (msg : String)
  | faces (l : List FaceAnalysis)
  | single (a : FaceAnalysis)
deriving DecidableEq

/-- The dictionary returned by `EmotionDetector.detect_emotion` /
`detect_from_bytes` (absent keys are `none`). -/
structure EmotionResult where
  success : Bool
  error : Option String
  dominant_emotion : String
  emoji : String
  all_emotions : Option (List (String × ℚ))
  confidence : Option ℚ
  message : Option String
deriving DecidableEq

/-- `EmotionDetector.EMOTION_EMOJIS`. -/
def EMOTION_EMOJIS : List (String × String) :=
  [("happy", "😊"), ("sad", "😢"), ("angry", "😠"), ("surprise", "😲"),
   ("fear", "😨"), ("disgust", "🤢"), ("neutral", "😐")]

/-- Python `s.lower()` on a whole string. -/
def pyLower (s : String) : String := String.mk (s.data.map Char.toLower)

/-- The success path of `detect_emotion` once DeepFace has produced a
single face record. -/
def emotionSuccess (a : FaceAnalysis) : EmotionResult :=
  let emotions := a.emotion.getD []
  let dominant := a.dominant_emotion.getD "neutral"
  let confidence : ℚ :=
    if emotions = [] then 0 else (emotions.lookup dominant).getD 0
  { success := true, error := none, dominant_emotion := dominant,
    emoji := (EMOTION_EMOJIS.lookup (pyLower dominant)).getD "😐",
    all_emotions := some emotions,
    confidence := some (roundHundredths confidence), message := none }

/-- `EmotionDetector.detect_emotion` (backend/vision/emotion_detector.py).
`path_ok` models the `os.path.exists` check (always true on the
`detect_from_bytes` path, which writes a temp file); the DeepFace call is
an oracle parameter. -/
def detect_emotion (path_ok : Bool) (outcome : DeepFaceOutcome) :
    EmotionResult :=
  if !path_ok then
    { success := false, error := some "Invalid image path",
      dominant_emotion := "neutral", emoji := "😐", all_emotions := none,
      confidence := none, message := none }
  else
    match outcome with
    | .raises msg =>
        { success := false, error := some msg,
          dominant_emotion := "neutral", emoji := "😐",
          all_emotions := none, confidence := none,
          message := some "Could not detect face. Using neutral emotion." }
    | .faces [] =>
        { success := false, error := some "No face detected",
          dominant_emotion := "neutral", emoji := "😐",
          all_emotions := none, confidence := none,
          message := some "Could not detect face. Using neutral emotion." }
    | .faces (a :: _) => emotionSuccess a
    | .single a => emotionSuccess a

/-- `EmotionDetector.detect_from_bytes`: `none` models bytes that
`cv2.imdecode` cannot decode. -/
def detect_from_bytes (decoded : Option DeepFaceOutcome) : EmotionResult :=
  match decoded with
  | none =>
      { success := false, error := some "Could not decode image",
        dominant_emotion := "neutral", emoji := "😐", all_emotions := none,
        confidence := none, message := none }
  | some outcome => detect_emotion true outcome

/-- The neutral default dictionary the app substitutes for a missing or
unsuccessful emotion result (app.py). -/
def neutralEmotionDefault : EmotionResult :=
  { success := false, error := none, dominant_emotion := "neutral",
    emoji := "😐", all_emotions := none, confidence := some 0,
    message := none }

/-- The app-side guard around the detector (app.py): if no image was
analyzed or the result is unsuccessful, the neutral default replaces it. -/
def app_emotion_result (r : Option EmotionResult) : EmotionResult :=
  match r with
  | none => neutralEmotionDefault
  | some er => if er.success then er else neutralEmotionDefault

/-- An emotion-detection call that fails or finds no face: undecodable
bytes, a DeepFace exception, or an empty face list. -/
def detectionFails (decoded : Option DeepFaceOutcome) : Prop :=
  decoded = none ∨ (∃ msg, decoded = some (.raises msg)) ∨
    decoded = some (.faces [])

/-- `AvatarGenerator.STYLE_MAPPING` (backend/avatar/generator.py). -/
def STYLE_MAPPING : List (String × String) :=
  [("creative", "avataaars"), ("optimistic", "bottts"),
   ("friendly", "big-smile"), ("analytical", "personas"),
   ("adventurous", "adventurer"), ("calm", "lorelei"),
   ("energetic", "fun-emoji"), ("default", "avataaars")]

/-- `AvatarGenerator.DICEBEAR_BASE_URL`. -/
def DICEBEAR_BASE_URL : String := "https://api.dicebear.com/7.x"

/-- `AvatarGenerator.generate_seed`.  The MD5 hex digest is an oracle
parameter `H` (32 lowercase hex characters for every input). -/
def generate_seed (H : String → String) (name : String)
    (traits : List String) : String :=
  pySlice (H (name ++ String.join
    (List.insertionSort (fun a b : String => a ≤ b) traits))) 10

/-- A concrete stand-in digest oracle with 32-character output. -/
def hexOracle : String → String :=
  fun _ => "0123456789abcdef0123456789abcdef"

/-- Python `max(traits, key=lambda k: traits[k])` on a non-empty dict:
the first key attaining the maximal value. -/
def pyMaxKey : List (String × ℚ) → String
  | [] => ""
  | x :: xs => (xs.foldl (fun best p => if best.2 < p.2 then p else best) x).1

/-- `AvatarGenerator.get_style_from_traits`. -/
def get_style_from_traits (traits : List (String × ℚ)) : String :=
  if traits = [] then (STYLE_MAPPING.lookup "default").getD ""
  else
    let dominant_trait := pyLower (pyMaxKey traits)
    match STYLE_MAPPING.find? (fun ks => isSubstr ks.1 dominant_trait) with
    | some ks => ks.2
    | none => (STYLE_MAPPING.lookup "default").getD ""

/-- `AvatarGenerator.generate_avatar_url`.  `traits = none` models the
Python default `traits=None`. -/
def generate_avatar_url (H : String → String) (name : String)
    (traits : Option (List (String × ℚ))) (emotion : String) : String :=
  let traits := traits.getD []
  let style := get_style_from_traits traits
  let trait_list := traits.map Prod.fst
  let seed := generate_seed H name trait_list
  let url := DICEBEAR_BASE_URL ++ "/" ++ style ++ "/svg"
  let params := ["seed=" ++ seed, "size=200",
                 "backgroundColor=b6e3f4,c0aede,d1d4f9"]
  let params :=
    if pyLower emotion = "happy" then params ++ ["mood[]=happy"]
    else if pyLower emotion = "sad" then params ++ ["mood[]=sad"]
    else params
  url ++ "?" ++ String.intercalate "&" params

/-! ## Helper lemmas -/

/-- The sequential keyword loop computes the sum of the per-match weights
(2 for a token match, 1 otherwise) over the matching keywords, paired with
the number of matching keywords. -/
theorem scanKeywords_eq (cleaned : String) (words : List String)
    (kws : List String) :
    scanKeywords cleaned words kws =
      (((kws.filter (fun kw => isSubstr kw cleaned)).map
          (fun kw => if words.contains kw then 2 else 1)).sum,
       (kws.filter (fun kw => isSubstr kw cleaned)).length) := by
  induction kws with
  | nil => rfl
  | cons kw rest ih =>
    simp only [scanKeywords, ih, List.filter_cons]
    by_cases h : isSubstr kw cleaned
    · simp [h, Nat.add_comm]
    · simp [h]

/-- A kept scoring entry carries its catalog row's trait name. -/
theorem scoreEntry_fst {cleaned : String} {words : List String}
    {tk : String × List String} {v : String × ℚ}
    (h : scoreEntry cleaned words tk = some v) : v.1 = tk.1 := by
  simp only [scoreEntry] at h
  split at h
  · injection h with h'
    subst h'
    rfl
  · exact Option.noConfusion h

/-- Looking up a name absent from a catalog fragment finds nothing in its
scored image. -/
theorem lookup_filterMap_none (cleaned : String) (words : List String)
    (l : List (String × List String)) (trait : String)
    (hnot : ∀ p ∈ l, p.1 ≠ trait) :
    (l.filterMap (scoreEntry cleaned words)).lookup trait = none := by
  induction l with
  | nil => rfl
  | cons a rest ih =>
    rw [List.filterMap_cons]
    cases hsa : scoreEntry cleaned words a with
    | none => exact ih fun p hp => hnot p (List.mem_cons_of_mem a hp)
    | some v =>
      obtain ⟨k, val⟩ := v
      have hk : k = a.1 := scoreEntry_fst hsa
      have hne : (trait == k) = false := by
        rw [hk]
        exact beq_eq_false_iff_ne.mpr
          fun hh => hnot a (List.mem_cons_self a rest) hh.symm
      simp only [List.lookup, hne]
      exact ih fun p hp => hnot p (List.mem_cons_of_mem a hp)

/-- Looking up a catalog trait in the scored map finds exactly the value
its own scoring entry produced. -/
theorem lookup_filterMap_mem (cleaned : String) (words : List String)
    (l : List (String × List String)) (trait : String) (kws : List String)
    (hmem : (trait, kws) ∈ l) (hnodup : (l.map Prod.fst).Nodup) :
    (l.filterMap (scoreEntry cleaned words)).lookup trait =
      (scoreEntry cleaned words (trait, kws)).map Prod.snd := by
  induction l with
  | nil => cases hmem
  | cons a rest ih =>
    have hnodup2 : (rest.map Prod.fst).Nodup := by
      simp only [List.map_cons, List.nodup_cons] at hnodup
      exact hnodup.2
    have hhead : a.1 ∉ rest.map Prod.fst := by
      simp only [List.map_cons, List.nodup_cons] at hnodup
      exact hnodup.1
    rcases List.mem_cons.mp hmem with heq | htail
    · subst heq
      rw [List.filterMap_cons]
      cases hsa : scoreEntry cleaned words (trait, kws) with
      | none =>
        exact lookup_filterMap_none cleaned words rest trait
          fun p hp hpeq =>
            hhead (by simpa [hpeq] using List.mem_map_of_mem Prod.fst hp)
      | some v =>
        obtain ⟨k, val⟩ := v
        have hk : k = trait := scoreEntry_fst hsa
        subst hk
        simp [List.lookup, hsa]
    · have hne : a.1 ≠ trait :=
        fun hh => hhead (hh ▸ List.mem_map_of_mem Prod.fst htail)
      rw [List.filterMap_cons]
      cases hsa : scoreEntry cleaned words a with
      | none => exact ih htail hnodup2
      | some v =>
        obtain ⟨k, val⟩ := v
        have hk : k = a.1 := scoreEntry_fst hsa
        have hbne : (trait == k) = false := by
          rw [hk]
          exact beq_eq_false_iff_ne.mpr fun hh => hne hh.symm
        simp only [List.lookup, hbne]
        exact ih htail hnodup2

/-- The scored map's trait names form a sublist of the catalog's names. -/
theorem filterMap_scoreEntry_names_sublist (cleaned : String)
    (words : List String) (l : List (String × List String)) :
    ((l.filterMap (scoreEntry cleaned words)).map Prod.fst).Sublist
      (l.map Prod.fst) := by
  induction l with
  | nil => simp
  | cons a rest ih =>
    rw [List.filterMap_cons, List.map_cons]
    cases hsa : scoreEntry cleaned words a with
    | none => exact ih.cons a.1
    | some v =>
      obtain ⟨k, val⟩ := v
      have hk : k = a.1 := scoreEntry_fst hsa
      subst hk
      rw [List.map_cons]
      exact ih.cons₂ a.1

/-- A computed trait confidence is nonnegative. -/
theorem traitConfidence_nonneg (s kc : ℕ) : 0 ≤ traitConfidence s kc := by
  unfold traitConfidence roundTenths
  have h2 : (0 : ℚ) ≤ min 100 ((s : ℚ) / (kc : ℚ) * 100 + 20) * 10 + 1 / 2 := by
    have : (0 : ℚ) ≤ min 100 ((s : ℚ) / (kc : ℚ) * 100 + 20) := by
      apply le_min
      · norm_num
      · positivity
    linarith
  have h3 : (0 : ℤ) ≤ ⌊min 100 ((s : ℚ) / (kc : ℚ) * 100 + 20) * 10 + 1 / 2⌋ :=
    Int.floor_nonneg.mpr h2
  have h4 : (0 : ℚ) ≤ (⌊min 100 ((s : ℚ) / (kc : ℚ) * 100 + 20) * 10 + 1 / 2⌋ : ℚ) := by
    exact_mod_cast h3
  linarith

/-- A computed trait confidence is at most 100. -/
theorem traitConfidence_le (s kc : ℕ) : traitConfidence s kc ≤ 100 := by
  unfold traitConfidence roundTenths
  have h1 : min 100 ((s : ℚ) / (kc : ℚ) * 100 + 20) ≤ 100 := min_le_left _ _
  have h2 : (⌊min 100 ((s : ℚ) / (kc : ℚ) * 100 + 20) * 10 + 1 / 2⌋ : ℚ) ≤
      min 100 ((s : ℚ) / (kc : ℚ) * 100 + 20) * 10 + 1 / 2 := Int.floor_le _
  have h3 : (⌊min 100 ((s : ℚ) / (kc : ℚ) * 100 + 20) * 10 + 1 / 2⌋ : ℚ) <
      1001 := by linarith
  have h4 : ⌊min 100 ((s : ℚ) / (kc : ℚ) * 100 + 20) * 10 + 1 / 2⌋ ≤ 1000 := by
    have : ⌊min 100 ((s : ℚ) / (kc : ℚ) * 100 + 20) * 10 + 1 / 2⌋ < 1001 := by
      exact_mod_cast h3
    omega
  have h5 : (⌊min 100 ((s : ℚ) / (kc : ℚ) * 100 + 20) * 10 + 1 / 2⌋ : ℚ) ≤
      1000 := by exact_mod_cast h4
  linarith

/-- Every entry of the raw scoring map has confidence in [0, 100]. -/
theorem mem_traitRawScores_bounds (text : String) (p : String × ℚ)
    (hp : p ∈ traitRawScores text) : 0 ≤ p.2 ∧ p.2 ≤ 100 := by
  simp only [traitRawScores] at hp
  rcases List.mem_filterMap.mp hp with ⟨tk, _, hsa⟩
  simp only [scoreEntry] at hsa
  split at hsa
  · injection hsa with h'
    subst h'
    exact ⟨traitConfidence_nonneg _ _, traitConfidence_le _ _⟩
  · exact Option.noConfusion hsa

/-- Sorting with `confGE` and keeping the top 5 preserves non-emptiness,
name uniqueness and confidence bounds, and yields a ≤5-long descending
list. -/
theorem sorted_take_props (l : List (String × ℚ)) (hl : l ≠ [])
    (hnodup : (l.map Prod.fst).Nodup)
    (hbounds : ∀ p ∈ l, 0 ≤ p.2 ∧ p.2 ≤ 100) :
    (List.insertionSort confGE l).take 5 ≠ [] ∧
    ((List.insertionSort confGE l).take 5).length ≤ 5 ∧
    (((List.insertionSort confGE l).take 5).map Prod.fst).Nodup ∧
    ((List.insertionSort confGE l).take 5).Sorted confGE ∧
    ∀ p ∈ (List.insertionSort confGE l).take 5, 0 ≤ p.2 ∧ p.2 ≤ 100 := by
  have hperm := List.perm_insertionSort confGE l
  have hlen : 0 < (List.insertionSort confGE l).length := by
    rw [hperm.length_eq]
    exact List.length_pos.mpr hl
  refine ⟨?_, ?_, ?_, ?_, ?_⟩
  · apply List.ne_nil_of_length_pos
    rw [List.length_take]
    omega
  · rw [List.length_take]
    exact min_le_left _ _
  · have h1 : ((List.insertionSort confGE l).map Prod.fst).Nodup :=
      (hperm.map Prod.fst).nodup_iff.mpr hnodup
    exact ((List.take_sublist 5 _).map Prod.fst).nodup h1
  · exact List.Pairwise.sublist (List.take_sublist 5 _)
      (List.sorted_insertionSort confGE l)
  · intro p hp
    exact hbounds p (hperm.subset ((List.take_sublist 5 _).subset hp))

/-! ## Theorems -/

/-- Claim C1: for every catalog trait, the keyword-loop scoring map of
`extract_traits` has an entry for that trait exactly when some of its
keywords occur as substrings of the normalized text, and the entry's value
is min(100, (rawScore/keywordCount)*100 + 20) rounded to one decimal,
where rawScore adds 2 for each matching keyword that is also an exact
whitespace-delimited token and 1 for every other matching keyword. -/
theorem C1_keyword_scoring (text trait : String) (kws : List String)
    (hmem : (trait, kws) ∈ TRAIT_KEYWORDS) :
    (traitRawScores text).lookup trait =
      (if kws.filter (fun kw => isSubstr kw (clean_text text)) = [] then
        none
       else
        some (roundTenths (min 100
          ((((kws.filter (fun kw => isSubstr kw (clean_text text))).map
              (fun kw =>
                if (pySplit (clean_text text)).contains kw then (2 : ℕ)
                else 1)).sum : ℚ) / (kws.length : ℚ) * 100 + 20)))) := by
  have hnodup : (TRAIT_KEYWORDS.map Prod.fst).Nodup := by decide
  simp only [traitRawScores]
  rw [lookup_filterMap_mem (clean_text text) (pySplit (clean_text text))
    TRAIT_KEYWORDS trait kws hmem hnodup]
  simp only [scoreEntry, scanKeywords_eq]
  by_cases hM : kws.filter (fun kw => isSubstr kw (clean_text text)) = []
  · simp [hM]
  · have hlen :
        0 < (kws.filter (fun kw => isSubstr kw (clean_text text))).length :=
      List.length_pos.mpr hM
    simp [hM, hlen, traitConfidence]

/-- Witness for C1 on the trait "Creative" and the text "i create art". -/
theorem C1_keyword_scoring_witness :
    (("Creative",
      ["create", "imagine", "art", "design", "innovative", "original",
       "unique", "inventive", "artistic", "creative", "ideas", "inspire"]) ∈
        TRAIT_KEYWORDS) ∧
    (traitRawScores "i create art").lookup "Creative" =
      (if (["create", "imagine", "art", "design", "innovative", "original",
            "unique", "inventive", "artistic", "creative", "ideas",
            "inspire"].filter
              (fun kw => isSubstr kw (clean_text "i create art"))) = [] then
        none
       else
        some (roundTenths (min 100
          ((((["create", "imagine", "art", "design", "innovative",
               "original", "unique", "inventive", "artistic", "creative",
               "ideas", "inspire"].filter
                (fun kw => isSubstr kw (clean_text "i create art"))).map
              (fun kw =>
                if (pySplit (clean_text "i create art")).contains kw
                then (2 : ℕ) else 1)).sum : ℚ) /
            ((["create", "imagine", "art", "design", "innovative",
               "original", "unique", "inventive", "artistic", "creative",
               "ideas", "inspire"] : List String).length : ℚ) * 100
            + 20)))) :=
  ⟨by decide,
   C1_keyword_scoring "i create art" "Creative"
     ["create", "imagine", "art", "design", "innovative", "original",
      "unique", "inventive", "artistic", "creative", "ideas", "inspire"]
     (by decide)⟩

/-- Claim C5: for every polarity oracle and text, `extract_traits` returns
a non-empty list of at most 5 entries with pairwise distinct trait names,
sorted by descending confidence, with every confidence in [0, 100]. -/
theorem C5_result_invariants (polarity : ℚ) (text : String) :
    extract_traits polarity text ≠ [] ∧
    (extract_traits polarity text).length ≤ 5 ∧
    ((extract_traits polarity text).map Prod.fst).Nodup ∧
    (extract_traits polarity text).Sorted confGE ∧
    ∀ p ∈ extract_traits polarity text, 0 ≤ p.2 ∧ p.2 ≤ 100 := by
  simp only [extract_traits]
  by_cases hraw : traitRawScores text = []
  · rw [if_pos hraw]
    by_cases hp : 0 < polarity
    · rw [if_pos hp]
      apply sorted_take_props
      · simp
      · simp
      · intro p hmem
        rw [List.mem_singleton] at hmem
        subst hmem
        norm_num
    · rw [if_neg hp]
      apply sorted_take_props
      · simp
      · simp
      · intro p hmem
        rw [List.mem_singleton] at hmem
        subst hmem
        norm_num
  · rw [if_neg hraw]
    apply sorted_take_props
    · exact hraw
    · have hsub := filterMap_scoreEntry_names_sublist (clean_text text)
        (pySplit (clean_text text)) TRAIT_KEYWORDS
      have hcat : (TRAIT_KEYWORDS.map Prod.fst).Nodup := by decide
      simpa only [traitRawScores] using hsub.nodup hcat
    · exact mem_traitRawScores_bounds text

/-- Claim C6: `analyze_sentiment` labels the externally computed polarity
"Positive" exactly when it exceeds 0.1, "Negative" exactly when it is below
-0.1, and "Neutral" exactly on the closed dead-zone [-0.1, 0.1]. -/
theorem C6_sentiment_thresholds (polarity : ℚ) :
    ((analyze_sentiment polarity).1 = "Positive" ↔ 1 / 10 < polarity) ∧
    ((analyze_sentiment polarity).1 = "Negative" ↔ polarity < -(1 / 10)) ∧
    ((analyze_sentiment polarity).1 = "Neutral" ↔
      -(1 / 10) ≤ polarity ∧ polarity ≤ 1 / 10) := by
  simp only [analyze_sentiment]
  split_ifs with h1 h2
  · exact ⟨iff_of_true rfl h1,
      iff_of_false (by decide) (by intro h; linarith),
      iff_of_false (by decide) (fun h => absurd h1 (not_lt.mpr h.2))⟩
  · exact ⟨iff_of_false (by decide) h1,
      iff_of_true rfl h2,
      iff_of_false (by decide) (fun h => absurd h2 (not_lt.mpr h.1))⟩
  · exact ⟨iff_of_false (by decide) h1,
      iff_of_false (by decide) h2,
      iff_of_true rfl ⟨not_lt.mp h2, not_lt.mp h1⟩⟩

/-- Claim C2: `calculate_profile_score` is the sum of the three sub-scores
((polarity+1)/2)*40, min(traitCount*8, 40) and min((textLength/100)*20, 20),
clamped to [0,100] and floored to an integer (truncation toward zero
coincides with floor on the clamped, nonnegative total); at the boundary,
score(1, 10, 1000) = 100 and score(-1, 0, 0) = 0. -/
theorem C2_profile_score :
    (∀ (p : ℚ) (tc tl : ℕ),
      calculate_profile_score p tc tl = profileScoreSpec p tc tl) ∧
    calculate_profile_score 1 10 1000 = 100 ∧
    calculate_profile_score (-1) 0 0 = 0 := by
  have key : ∀ (p : ℚ) (tc tl : ℕ),
      calculate_profile_score p tc tl = profileScoreSpec p tc tl := by
    intro p tc tl
    unfold calculate_profile_score profileScoreSpec pyInt
    have h0 : (0 : ℚ) ≤ min 100 (max 0 (((p + 1) / 2) * 40
        + min ((tc : ℚ) * 8) 40 + min (((tl : ℚ) / 100) * 20) 20)) :=
      le_min (by norm_num) (le_max_left 0 _)
    rw [if_pos h0]
  refine ⟨key, ?_, ?_⟩
  · rw [key]
    unfold profileScoreSpec
    norm_num
  · rw [key]
    unfold profileScoreSpec
    norm_num

/-- Claim C4: when no trait accumulates any keyword match, the extractor
returns the single fallback trait, "Optimistic" at 60.0 for strictly
positive raw-text polarity and "Calm" at 50.0 otherwise. -/
theorem C4_fallback (polarity : ℚ) (text : String)
    (h : traitRawScores text = []) :
    extract_traits polarity text =
      if 0 < polarity then [("Optimistic", 60)] else [("Calm", 50)] := by
  unfold extract_traits
  rw [h]
  by_cases hp : 0 < polarity <;>
    simp [hp, List.insertionSort, List.orderedInsert]

/-- Witness for C4 at the spec's own keyword-free example text. -/
theorem C4_fallback_witness :
    traitRawScores "xyz qqq zzz wwwww" = [] ∧
    extract_traits 1 "xyz qqq zzz wwwww" =
      if (0 : ℚ) < 1 then [("Optimistic", 60)] else [("Calm", 50)] :=
  ⟨by decide, C4_fallback 1 "xyz qqq zzz wwwww" (by decide)⟩

/-- Claim C3: `process` rejects empty or short (trimmed length < 10) text
with success=false and a descriptive error without consulting the analyzer
(the result is the same for every analyzer oracle), and any analyzer
exception is caught and surfaced as success=false carrying the exception's
message, so `process` always returns a result. -/
theorem C3_gate_and_catch (text : String) :
    ((text = "" ∨ (pyStrip text).length < 10) →
      (∀ f g : String → Except String AnalysisOk,
        process f text = process g text) ∧
      (process okOracle text).success = false ∧
      (process okOracle text).error =
        some "Text too short. Please provide at least 10 characters.") ∧
    (¬(text = "" ∨ (pyStrip text).length < 10) →
      ∀ (f : String → Except String AnalysisOk) (e : String),
        f text = .error e →
        (process f text).success = false ∧
        (process f text).error = some ("Analysis failed: " ++ e)) := by
  constructor
  · intro h
    refine ⟨fun f g => ?_, ?_, ?_⟩
    · unfold process
      rw [if_pos h, if_pos h]
    · unfold process
      rw [if_pos h]
    · unfold process
      rw [if_pos h]
  · intro h f e hf
    unfold process
    rw [if_neg h, hf]
    exact ⟨rfl, rfl⟩

/-- Witness for C3: a 5-character text is rejected identically under two
different oracles, and a raising oracle's message is surfaced. -/
theorem C3_gate_and_catch_witness :
    (("short" = "" ∨ (pyStrip "short").length < 10) ∧
      process okOracle "short" = process errOracle "short") ∧
    (¬("valid input text!!" = "" ∨
        (pyStrip "valid input text!!").length < 10) ∧
      errOracle "valid input text!!" = .error "boom" ∧
      ((process errOracle "valid input text!!").success = false ∧
       (process errOracle "valid input text!!").error =
         some ("Analysis failed: " ++ "boom"))) :=
  ⟨⟨by decide, ((C3_gate_and_catch "short").1 (by decide)).1
      okOracle errOracle⟩,
   ⟨by decide, rfl, (C3_gate_and_catch "valid input text!!").2
      (by decide) errOracle "boom" rfl⟩⟩

/-- Claim C9: on the successful path, `process` returns success=true and a
`processed_text` field holding the first 500 characters of the original
input. -/
theorem C9_processed_text (f : String → Except String AnalysisOk)
    (text : String) (r : AnalysisOk)
    (hgate : ¬(text = "" ∨ (pyStrip text).length < 10))
    (hok : f text = .ok r) :
    process f text =
      { success := true, error := none, analysis := some r,
        processed_text := some (pySlice text 500) } := by
  unfold process
  rw [if_neg hgate, hok]

/-- Witness for C9 on a concrete accepted input. -/
theorem C9_processed_text_witness :
    ¬("valid input text!!" = "" ∨
      (pyStrip "valid input text!!").length < 10) ∧
    okOracle "valid input text!!" = .ok ⟨"Neutral", 0, 0, [], "", 0⟩ ∧
    process okOracle "valid input text!!" =
      { success := true, error := none,
        analysis := some ⟨"Neutral", 0, 0, [], "", 0⟩,
        processed_text := some (pySlice "valid input text!!" 500) } :=
  ⟨by decide, rfl,
   C9_processed_text okOracle "valid input text!!" ⟨"Neutral", 0, 0, [], "", 0⟩
     (by decide) rfl⟩

/-- Claim C7: every failing emotion-detection call (undecodable bytes, a
DeepFace exception, or an empty face list) yields a detector result with
success=false and dominantEmotion="neutral", and the result the app then
uses is the neutral default with confidence 0 and no error field. -/
theorem C7_neutral_on_failure (decoded : Option DeepFaceOutcome)
    (h : detectionFails decoded) :
    (detect_from_bytes decoded).success = false ∧
    (detect_from_bytes decoded).dominant_emotion = "neutral" ∧
    app_emotion_result (some (detect_from_bytes decoded)) =
      neutralEmotionDefault := by
  rcases h with h | ⟨msg, h⟩ | h <;> subst h <;>
    simp [detect_from_bytes, detect_emotion, app_emotion_result]

/-- Witness for C7 at undecodable image bytes. -/
theorem C7_neutral_on_failure_witness :
    detectionFails none ∧
    ((detect_from_bytes none).success = false ∧
     (detect_from_bytes none).dominant_emotion = "neutral" ∧
     app_emotion_result (some (detect_from_bytes none)) =
       neutralEmotionDefault) :=
  ⟨Or.inl rfl, C7_neutral_on_failure none (Or.inl rfl)⟩

/-- Claim C8: `generate_seed` hashes the name concatenated with the sorted
trait names, so permuting the trait list leaves the 10-character seed
unchanged (the digest oracle returning 32 hex characters, as MD5 does). -/
theorem C8_seed_permutation_invariant (H : String → String) (name : String)
    (t1 t2 : List String) (hH : ∀ s, (H s).length = 32)
    (hperm : t1.Perm t2) :
    generate_seed H name t1 = generate_seed H name t2 ∧
    (generate_seed H name t1).length = 10 := by
  have hsorteq : List.insertionSort (fun a b : String => a ≤ b) t1 =
      List.insertionSort (fun a b : String => a ≤ b) t2 :=
    List.eq_of_perm_of_sorted
      ((List.perm_insertionSort _ t1).trans
        (hperm.trans (List.perm_insertionSort _ t2).symm))
      (List.sorted_insertionSort _ t1) (List.sorted_insertionSort _ t2)
  constructor
  · unfold generate_seed
    rw [hsorteq]
  · have h := hH (name ++ String.join
      (List.insertionSort (fun a b : String => a ≤ b) t1))
    unfold generate_seed pySlice
    rcases hs : H (name ++ String.join
      (List.insertionSort (fun a b : String => a ≤ b) t1)) with ⟨l⟩
    rw [hs] at h
    have hl : l.length = 32 := h
    show (l.take 10).length = 10
    rw [List.length_take, hl]
    rfl

/-- Witness for C8 at the spec's example: Alice with the two traits in
either order. -/
theorem C8_seed_permutation_invariant_witness :
    (∀ s, (hexOracle s).length = 32) ∧
    (["Creative", "Calm"] : List String).Perm ["Calm", "Creative"] ∧
    (generate_seed hexOracle "Alice" ["Creative", "Calm"] =
       generate_seed hexOracle "Alice" ["Calm", "Creative"] ∧
     (generate_seed hexOracle "Alice" ["Creative", "Calm"]).length = 10) :=
  ⟨fun _ => rfl, by decide,
   C8_seed_permutation_invariant hexOracle "Alice" _ _ (fun _ => rfl)
     (by decide)⟩

/-- Claim C10: with no traits (None or empty), `generate_avatar_url` still
builds the fully formed URL: the style falls back to "avataaars", the seed
is derived from the name with an empty trait list, and the URL is a
function of the name and emotion only. -/
theorem C10_avatar_url_no_traits (H : String → String)
    (name emotion : String) :
    generate_avatar_url H name none emotion =
      generate_avatar_url H name (some []) emotion ∧
    get_style_from_traits [] = "avataaars" ∧
    generate_avatar_url H name none emotion =
      DICEBEAR_BASE_URL ++ "/" ++ "avataaars" ++ "/svg" ++ "?" ++
        String.intercalate "&"
          (["seed=" ++ generate_seed H name [], "size=200",
            "backgroundColor=b6e3f4,c0aede,d1d4f9"] ++
           (if pyLower emotion = "happy" then ["mood[]=happy"]
            else if pyLower emotion = "sad" then ["mood[]=sad"]
            else [])) := by
  have hstyle : get_style_from_traits [] = "avataaars" := by decide
  refine ⟨rfl, hstyle, ?_⟩
  unfold generate_avatar_url
  simp only [Option.getD_none, hstyle, List.map_nil]
  by_cases h1 : pyLower emotion = "happy"
  · simp [h1]
  · by_cases h2 : pyLower emotion = "sad" <;> simp [h1, h2]

end PersonalityTwin
